import Mathlib

/-!
Shallow embedding of the HTTP service in `main.py`: two GET routes, a
root handler returning a fixed greeting and an item handler echoing an
integer path parameter together with an optional string query parameter.
The handlers themselves are translated from the source; the framework's
routing and integer validation of the path segment (FastAPI's work, not
present in the source file) is modelled from the spec.
-/

/-- JSON values, the shape of the data the two handlers return. -/
inductive Json where
  | null : Json
  | str : String → Json
  | int : Int → Json
  | obj : List (String × Json) → Json

/-- Top-level keys of a JSON object, in order. -/
def Json.topKeys : Json → List String
  | Json.obj fields => fields.map Prod.fst
  | _ => []

/-- Field lookup in a JSON object. -/
def Json.getField : Json → String → Option Json
  | Json.obj fields, k => fields.lookup k
  | _, _ => none

/-- Serialization of the optional query value: Python None becomes JSON
null, a string is kept verbatim. -/
def optStr : Option String → Json
  | none => Json.null
  | some s => Json.str s

/-- Embedding of `read_root` from main.py: it returns the fixed dict
`{"message": "Hello World"}`. -/
def read_root : Json := Json.obj [("message", Json.str "Hello World")]

/-- Embedding of `read_item` from main.py: it returns the dict
`{"item_id": item_id, "q": q}` with both inputs taken verbatim. -/
def read_item (item_id : Int) (q : Option String) : Json :=
  Json.obj [("item_id", Json.int item_id), ("q", optStr q)]

/-- The character for a decimal digit d < 10. -/
def digitChar (d : Nat) : Char := Char.ofNat (48 + d)

/-- Decimal digit characters of a natural number, most significant first. -/
def toDecimal (n : Nat) : List Char :=
  if h : n < 10 then [digitChar n]
  else toDecimal (n / 10) ++ [digitChar (n % 10)]
decreasing_by exact Nat.div_lt_self (by omega) (by omega)

/-- Decimal rendering of an integer, with a leading minus sign when
negative, as Python's str() writes it into a URL path. -/
def renderInt (n : Int) : String :=
  if n < 0 then String.mk ('-' :: toDecimal n.natAbs) else String.mk (toDecimal n.natAbs)

/-- Left-to-right accumulation of decimal digits; fails on the first
non-digit character. -/
def parseDigitsFrom (acc : Nat) : List Char → Option Nat
  | [] => some acc
  | c :: cs => if c.isDigit then parseDigitsFrom (acc * 10 + (c.toNat - 48)) cs else none

/-- Value of a nonempty all-digit character list; none on the empty list
or on any non-digit character. -/
def parseDigits (cs : List Char) : Option Nat :=
  match cs with
  | [] => none
  | _ => parseDigitsFrom 0 cs

/-- Modelled from the spec: the framework parses the `item_id` path
segment as an integer and rejects segments that are not parseable as an
integer (an optional sign followed by decimal digits). This validation
layer belongs to the web framework and is not in the source file. -/
def parseIntStr (s : String) : Option Int :=
  match s.data with
  | [] => none
  | c :: cs =>
    if c = '-' then (parseDigits cs).map (fun m => -(m : Int))
    else if c = '+' then (parseDigits cs).map (fun m => (m : Int))
    else (parseDigits (c :: cs)).map (fun m => (m : Int))

/-- An incoming HTTP GET request: path split into segments (the root path
is the empty list), parsed query parameters, headers, and body. -/
structure Request where
  path : List String
  query : List (String × String)
  headers : List (String × String)
  body : String
deriving DecidableEq, Repr

/-- Outcome of dispatching one request: a JSON success body, or an error
status such as 422 (validation) or 404 (no route). -/
inductive Response where
  | ok : Json → Response
  | clientError : Nat → Response

/-- Modelled from the spec: the framework hands a registered handler the
value of a declared query parameter when present, and its default
otherwise. -/
def getQuery (req : Request) (name : String) : Option String :=
  req.query.lookup name

/-- Modelled from the spec: the framework's dispatcher. GET `/` runs
read_root; GET `/items/{item_id}` validates the path segment as an
integer, rejecting with a 422 client error before the handler runs, and
otherwise runs read_item with the optional `q` query value; any other
path has no route. -/
def handle (req : Request) : Response :=
  match req.path with
  | [] => Response.ok read_root
  | [a, seg] =>
    if a = "items" then
      match parseIntStr seg with
      | some n => Response.ok (read_item n (getQuery req "q"))
      | none => Response.clientError 422
    else Response.clientError 404
  | _ => Response.clientError 404

/-- The server processes a sequence of requests: each response is the
handler applied to its own request, with no state carried between
requests (the source's handlers read and write no shared state). -/
def serve (reqs : List Request) : List Response := reqs.map handle

/-- A digit character is classified as a digit. -/
theorem digitChar_isDigit (d : Nat) (h : d < 10) : (digitChar d).isDigit = true := by
  interval_cases d <;> decide

/-- Code point of a digit character. -/
theorem digitChar_toNat (d : Nat) (h : d < 10) : (digitChar d).toNat = 48 + d := by
  interval_cases d <;> decide

/-- The decimal rendering of a natural number is nonempty and starts with
a digit character. -/
theorem toDecimal_cons (n : Nat) :
    ∃ d ds, toDecimal n = d :: ds ∧ d.isDigit = true := by
  induction n using Nat.strong_induction_on with
  | _ n ih =>
    by_cases h : n < 10
    · exact ⟨digitChar n, [], by rw [toDecimal]; simp [h], digitChar_isDigit n h⟩
    · obtain ⟨d, ds, hcons, hdig⟩ := ih (n / 10) (Nat.div_lt_self (by omega) (by omega))
      refine ⟨d, ds ++ [digitChar (n % 10)], ?_, hdig⟩
      rw [toDecimal]
      simp [h, hcons]

/-- Parsing the decimal rendering of n, followed by any rest, continues
with accumulator n. -/
theorem parseDigitsFrom_toDecimal (n : Nat) :
    ∀ rest, parseDigitsFrom 0 (toDecimal n ++ rest) = parseDigitsFrom n rest := by
  induction n using Nat.strong_induction_on with
  | _ n ih =>
    intro rest
    by_cases h : n < 10
    · rw [toDecimal]
      simp [h, parseDigitsFrom, digitChar_isDigit n h, digitChar_toNat n h]
    · rw [toDecimal, dif_neg h, List.append_assoc, List.singleton_append,
        ih (n / 10) (Nat.div_lt_self (by omega) (by omega)) (digitChar (n % 10) :: rest)]
      have hm : n % 10 < 10 := Nat.mod_lt n (by omega)
      simp [parseDigitsFrom, digitChar_isDigit _ hm, digitChar_toNat _ hm]
      rw [show n / 10 * 10 + n % 10 = n by omega]

/-- Parsing inverts rendering on natural numbers. -/
theorem parseDigits_toDecimal (n : Nat) : parseDigits (toDecimal n) = some n := by
  obtain ⟨d, ds, hcons, _⟩ := toDecimal_cons n
  have h2 := parseDigitsFrom_toDecimal n []
  rw [List.append_nil] at h2
  rw [hcons] at h2 ⊢
  simpa [parseDigits] using h2

/-- The framework's integer parse inverts decimal rendering on every
integer, positive, zero or negative. -/
theorem parseIntStr_renderInt (n : Int) : parseIntStr (renderInt n) = some n := by
  by_cases hn : n < 0
  · rw [renderInt, if_pos hn]
    simp [parseIntStr, parseDigits_toDecimal]
    simp [abs_of_neg hn]
  · rw [renderInt, if_neg hn]
    obtain ⟨d, ds, hcons, hdig⟩ := toDecimal_cons n.natAbs
    have hd1 : d ≠ '-' := by intro e; rw [e] at hdig; exact absurd hdig (by decide)
    have hd2 : d ≠ '+' := by intro e; rw [e] at hdig; exact absurd hdig (by decide)
    rw [hcons]
    simp [parseIntStr, hd1, hd2]
    rw [← hcons, parseDigits_toDecimal]
    simp
    omega

example : parseIntStr "42" = some 42 := by decide
example : parseIntStr "-7" = some (-7) := by decide
example : parseIntStr "abc" = none := by decide
example : parseIntStr "" = none := by decide
example : parseIntStr "-" = none := by decide

/-- Dispatch on the items route reduces to the validation followed by
the handler. -/
theorem handle_items (req : Request) (seg : String)
    (hp : req.path = ["items", seg]) :
    handle req = (match parseIntStr seg with
      | some n => Response.ok (read_item n (getQuery req "q"))
      | none => Response.clientError 422) := by
  unfold handle
  rw [hp]
  rfl

/-- Dispatch on the root route runs read_root. -/
theorem handle_root (req : Request) (hp : req.path = []) :
    handle req = Response.ok read_root := by
  unfold handle
  rw [hp]

/-- C1: for every integer n, a GET request whose path is /items/{n}
(n rendered in decimal) is accepted, and the response body's item_id
field equals n exactly: round-trip identity between the parsed path
parameter and the echoed value. -/
theorem C1_item_id_roundtrip (n : Int) (req : Request)
    (hp : req.path = ["items", renderInt n]) :
    ∃ j, handle req = Response.ok j ∧ j.getField "item_id" = some (Json.int n) := by
  refine ⟨read_item n (getQuery req "q"), ?_, rfl⟩
  rw [handle_items req (renderInt n) hp, parseIntStr_renderInt n]

/-- Witness for C1 at n = 42. -/
theorem C1_witness :
    ∃ j, handle ⟨["items", renderInt 42], [], [], ""⟩ = Response.ok j ∧
      j.getField "item_id" = some (Json.int 42) :=
  C1_item_id_roundtrip 42 ⟨["items", renderInt 42], [], [], ""⟩ rfl

/-- C2: every GET request to the root path succeeds with exactly the
mapping \x7b"message": "Hello World"\x7d, with no error condition. -/
theorem C2_root_hello (req : Request) (hp : req.path = []) :
    handle req = Response.ok read_root ∧
    read_root = Json.obj [("message", Json.str "Hello World")] :=
  ⟨handle_root req hp, rfl⟩

/-- Witness for C2 on a concrete root request. -/
theorem C2_witness :
    handle ⟨[], [], [], ""⟩ = Response.ok read_root ∧
    read_root = Json.obj [("message", Json.str "Hello World")] :=
  C2_root_hello ⟨[], [], [], ""⟩ rfl

/-- C3: a GET request to /items/{n} with no q query parameter answers
with \x7b"item_id": n, "q": null\x7d: the q field defaults to null. -/
theorem C3_q_defaults_null (n : Int) (req : Request)
    (hp : req.path = ["items", renderInt n]) (hq : getQuery req "q" = none) :
    handle req = Response.ok (Json.obj [("item_id", Json.int n), ("q", Json.null)]) := by
  rw [handle_items req (renderInt n) hp, parseIntStr_renderInt n, hq]
  rfl

/-- Witness for C3 at n = 42 with an empty query list. -/
theorem C3_witness :
    handle ⟨["items", renderInt 42], [], [], ""⟩ =
      Response.ok (Json.obj [("item_id", Json.int 42), ("q", Json.null)]) :=
  C3_q_defaults_null 42 ⟨["items", renderInt 42], [], [], ""⟩ rfl rfl

/-- C4: a GET request to /items/{n} with query parameter q bound to a
string s answers with \x7b"item_id": n, "q": s\x7d, s returned verbatim. -/
theorem C4_q_verbatim (n : Int) (s : String) (req : Request)
    (hp : req.path = ["items", renderInt n]) (hq : getQuery req "q" = some s) :
    handle req = Response.ok (Json.obj [("item_id", Json.int n), ("q", Json.str s)]) := by
  rw [handle_items req (renderInt n) hp, parseIntStr_renderInt n, hq]
  rfl

/-- Witness for C4 at n = 42, s = "foo". -/
theorem C4_witness :
    handle ⟨["items", renderInt 42], [("q", "foo")], [], ""⟩ =
      Response.ok (Json.obj [("item_id", Json.int 42), ("q", Json.str "foo")]) :=
  C4_q_verbatim 42 "foo" ⟨["items", renderInt 42], [("q", "foo")], [], ""⟩ rfl rfl

/-- C5: a request on the items route fails exactly when the path segment
is not parseable as an integer, and then with the 422 client error
produced by the validation layer in place of the handler; the root route
has no failure mode at all. -/
theorem C5_validation_only_failure :
    (∀ (req : Request) (seg : String), req.path = ["items", seg] →
      (((∃ c, handle req = Response.clientError c) ↔ parseIntStr seg = none) ∧
       (parseIntStr seg = none → handle req = Response.clientError 422))) ∧
    (∀ req : Request, req.path = [] → handle req = Response.ok read_root) := by
  constructor
  · intro req seg hp
    rw [handle_items req seg hp]
    cases hps : parseIntStr seg with
    | none => simp
    | some m => simp
  · exact handle_root

/-- Witness for C5: the non-integer segment "abc" is rejected with 422. -/
theorem C5_witness :
    handle ⟨["items", "abc"], [], [], ""⟩ = Response.clientError 422 :=
  (C5_validation_only_failure.1 ⟨["items", "abc"], [], [], ""⟩ "abc" rfl).2 (by decide)

/-- C6: the items response has exactly the keys item_id and q, in that
order and nothing else; the root response has exactly the key message. -/
theorem C6_exact_keys :
    (∀ (n : Int) (q : Option String), (read_item n q).topKeys = ["item_id", "q"]) ∧
    read_root.topKeys = ["message"] :=
  ⟨fun _ _ => rfl, rfl⟩

/-- C7: the server is stateless: the response to a request depends only
on that request, not on which requests were served before or between, so
equal requests at any positions of any two histories get equal
responses. -/
theorem C7_stateless (h1 h2 : List Request) (i j : Nat) (r : Request)
    (hi : h1[i]? = some r) (hj : h2[j]? = some r) :
    (serve h1)[i]? = (serve h2)[j]? := by
  simp [serve, List.getElem?_map, hi, hj]

/-- Witness for C7: the same request served alone and after another
request gets the same response. -/
theorem C7_witness :
    (serve [⟨[], [], [], ""⟩])[0]? =
      (serve [⟨["items", "1"], [], [], ""⟩, ⟨[], [], [], ""⟩])[1]? :=
  C7_stateless [⟨[], [], [], ""⟩] [⟨["items", "1"], [], [], ""⟩, ⟨[], [], [], ""⟩]
    0 1 ⟨[], [], [], ""⟩ rfl rfl

/-- C8: no range restriction on the identifier: every integer n, zero
and negative integers included, is accepted on the items route and
echoed back through read_item. -/
theorem C8_no_range_restriction (n : Int) (req : Request)
    (hp : req.path = ["items", renderInt n]) :
    handle req = Response.ok (read_item n (getQuery req "q")) := by
  rw [handle_items req (renderInt n) hp, parseIntStr_renderInt n]

/-- Witness for C8 at n = 0 and n = -5. -/
theorem C8_witness :
    handle ⟨["items", renderInt 0], [], [], ""⟩ =
      Response.ok (read_item 0 (getQuery ⟨["items", renderInt 0], [], [], ""⟩ "q")) ∧
    handle ⟨["items", renderInt (-5)], [], [], ""⟩ =
      Response.ok (read_item (-5) (getQuery ⟨["items", renderInt (-5)], [], [], ""⟩ "q")) :=
  ⟨C8_no_range_restriction 0 ⟨["items", renderInt 0], [], [], ""⟩ rfl,
   C8_no_range_restriction (-5) ⟨["items", renderInt (-5)], [], [], ""⟩ rfl⟩

/-- C9: a q parameter present with the empty-string value yields the
JSON string "" in the response, which is distinct from the null used
when q is absent. -/
theorem C9_empty_q_is_empty_string (n : Int) (req : Request)
    (hp : req.path = ["items", renderInt n]) (hq : getQuery req "q" = some "") :
    handle req = Response.ok (Json.obj [("item_id", Json.int n), ("q", Json.str "")]) ∧
    Json.str "" ≠ Json.null := by
  refine ⟨?_, by simp⟩
  rw [handle_items req (renderInt n) hp, parseIntStr_renderInt n, hq]
  rfl

/-- Witness for C9 at n = 42 with q present but empty. -/
theorem C9_witness :
    handle ⟨["items", renderInt 42], [("q", "")], [], ""⟩ =
      Response.ok (Json.obj [("item_id", Json.int 42), ("q", Json.str "")]) ∧
    Json.str "" ≠ Json.null :=
  C9_empty_q_is_empty_string 42 ⟨["items", renderInt 42], [("q", "")], [], ""⟩ rfl rfl

/-- C10: read_root is constant: any two requests to the root path, with
whatever query parameters, headers and bodies, get identical responses. -/
theorem C10_root_constant (r1 r2 : Request)
    (hp1 : r1.path = []) (hp2 : r2.path = []) :
    handle r1 = handle r2 := by
  rw [handle_root r1 hp1, handle_root r2 hp2]

/-- Witness for C10 on two root requests differing in query, headers and
body. -/
theorem C10_witness :
    handle ⟨[], [("a", "b")], [("h", "v")], "body"⟩ = handle ⟨[], [], [], ""⟩ :=
  C10_root_constant ⟨[], [("a", "b")], [("h", "v")], "body"⟩ ⟨[], [], [], ""⟩ rfl rfl
